import Mathlib

/-!
# Verification of the neuron-model core (neuro-models-example)

A shallow embedding of the symbolic neuron-model framework:

* `Expr` — the symbolic-expression trees built with sympy in
  `src/neuro_models/HH.py` and `src/neuro_models/HH_RTM_M.py`
  (symbols, rational literals, `+ - * / ^ exp`);
* the Hodgkin-Huxley (`HH_*`) and reduced Traub-Miles with M-current
  (`RTM_*`) rate functions, ionic currents and derivative expressions,
  transcribed term by term from the two model files;
* `NM_model` — the model-descriptor record (its class lives in the
  repository's `util.py`, which is not part of the sources here, so the
  record and its `compile` are modelled from the specification);
* the standalone Erisir-variant script `src/standalone/HH_erisir.py`
  (`alpha_n` … `beta_h`, `compute_derivatives`, `compute`), with the
  external `scipy.integrate.odeint` modelled as a deterministic
  fixed-step integrator.
-/

/-- Symbolic scalar expression over named symbols: the fragment of sympy
expressions the two model files use (`+ - * / ** exp` and unary minus,
with float literals, all of which are exact rationals). Exponents in the
sources are the integral floats `2.0`, `3.0`, `4.0`, so `pow` carries a
natural-number exponent. -/
inductive Expr where
  | num : ℚ → Expr
  | sym : String → Expr
  | add : Expr → Expr → Expr
  | sub : Expr → Expr → Expr
  | mul : Expr → Expr → Expr
  | div : Expr → Expr → Expr
  | pow : Expr → ℕ → Expr
  | exp : Expr → Expr
  | neg : Expr → Expr
deriving DecidableEq, Repr

/-- Numeric evaluation of an expression under an assignment of real
values to symbol names. Division is the real (total) division; the
separate predicate `Expr.denomsNonzero` records when no division by
zero occurs. -/
noncomputable def Expr.eval (ρ : String → ℝ) : Expr → ℝ
  | .num q => (q : ℝ)
  | .sym s => ρ s
  | .add a b => a.eval ρ + b.eval ρ
  | .sub a b => a.eval ρ - b.eval ρ
  | .mul a b => a.eval ρ * b.eval ρ
  | .div a b => a.eval ρ / b.eval ρ
  | .pow a k => a.eval ρ ^ k
  | .exp a => Real.exp (a.eval ρ)
  | .neg a => -(a.eval ρ)

/-- Evaluation of the expression under `ρ` meets no zero denominator:
guarded (total) evaluation never takes the division-by-zero branch. -/
def Expr.denomsNonzero (ρ : String → ℝ) : Expr → Prop
  | .num _ => True
  | .sym _ => True
  | .add a b => a.denomsNonzero ρ ∧ b.denomsNonzero ρ
  | .sub a b => a.denomsNonzero ρ ∧ b.denomsNonzero ρ
  | .mul a b => a.denomsNonzero ρ ∧ b.denomsNonzero ρ
  | .div a b => a.denomsNonzero ρ ∧ b.denomsNonzero ρ ∧ b.eval ρ ≠ 0
  | .pow a _ => a.denomsNonzero ρ
  | .exp a => a.denomsNonzero ρ
  | .neg a => a.denomsNonzero ρ

/-- The list of symbol names occurring (free) in the expression. -/
def Expr.syms : Expr → List String
  | .num _ => []
  | .sym s => [s]
  | .add a b => a.syms ++ b.syms
  | .sub a b => a.syms ++ b.syms
  | .mul a b => a.syms ++ b.syms
  | .div a b => a.syms ++ b.syms
  | .pow a _ => a.syms
  | .exp a => a.syms
  | .neg a => a.syms

/-- Substitution of numeric values for symbols (sympy `subs` with a
symbol-to-number mapping): symbols in the domain of `σ` become numeric
literals, others are left in place. -/
def Expr.subst (σ : String → Option ℚ) : Expr → Expr
  | .num q => .num q
  | .sym s => match σ s with
      | some q => .num q
      | none => .sym s
  | .add a b => .add (a.subst σ) (b.subst σ)
  | .sub a b => .sub (a.subst σ) (b.subst σ)
  | .mul a b => .mul (a.subst σ) (b.subst σ)
  | .div a b => .div (a.subst σ) (b.subst σ)
  | .pow a k => .pow (a.subst σ) k
  | .exp a => .exp (a.subst σ)
  | .neg a => .neg (a.subst σ)

/-! ## Hodgkin-Huxley model (`src/neuro_models/HH.py`) -/

/-- Source: `HH_consts`: the default constants of the HH model
(lines 30-38 of `HH.py`). -/
def HH_consts : List (String × ℚ) :=
  [("g_K", 36.0), ("g_Na", 120.0), ("g_L", 0.3),
   ("E_K", -77.0), ("E_Na", 50.0), ("E_L", -54.4), ("C_m", 1.0)]

/-- Source: `_alpha_n = - 0.01 * ( _V_m + 55.0 )/( sym.exp(-( _V_m + 55.0 )/10)-1)` -/
def HH_alpha_n : Expr :=
  .div (.mul (.neg (.num 0.01)) (.add (.sym "V_m") (.num 55.0)))
    (.sub (.exp (.div (.neg (.add (.sym "V_m") (.num 55.0))) (.num 10))) (.num 1))

/-- Source: `_beta_n = 0.125 * sym.exp(-( _V_m + 65.0 )/80)` -/
def HH_beta_n : Expr :=
  .mul (.num 0.125) (.exp (.div (.neg (.add (.sym "V_m") (.num 65.0))) (.num 80)))

/-- Source: `_alpha_m = -0.1 * ( _V_m + 40.0 ) / ( sym.exp(-(_V_m + 40.0)/10)-1 )` -/
def HH_alpha_m : Expr :=
  .div (.mul (.neg (.num 0.1)) (.add (.sym "V_m") (.num 40.0)))
    (.sub (.exp (.div (.neg (.add (.sym "V_m") (.num 40.0))) (.num 10))) (.num 1))

/-- Source: `_beta_m = 4 * sym.exp(-( _V_m + 65 )/18)` -/
def HH_beta_m : Expr :=
  .mul (.num 4) (.exp (.div (.neg (.add (.sym "V_m") (.num 65))) (.num 18)))

/-- Source: `_alpha_h = 0.07 * sym.exp( -( _V_m + 65 )/20 )` -/
def HH_alpha_h : Expr :=
  .mul (.num 0.07) (.exp (.div (.neg (.add (.sym "V_m") (.num 65))) (.num 20)))

/-- Source: `_beta_h = 1.0 / (sym.exp(-( _V_m + 35 )/10)+1)` -/
def HH_beta_h : Expr :=
  .div (.num 1.0)
    (.add (.exp (.div (.neg (.add (.sym "V_m") (.num 35))) (.num 10))) (.num 1))

/-- Source: `_I_K = _g_K * (_n ** 4.0) * ( _V_m - _E_K )` -/
def HH_I_K : Expr :=
  .mul (.mul (.sym "g_K") (.pow (.sym "n") 4)) (.sub (.sym "V_m") (.sym "E_K"))

/-- Source: `_I_Na = _g_Na * ( _m ** 3.0 ) * _h * (_V_m - _E_Na)` -/
def HH_I_Na : Expr :=
  .mul (.mul (.mul (.sym "g_Na") (.pow (.sym "m") 3)) (.sym "h"))
    (.sub (.sym "V_m") (.sym "E_Na"))

/-- Source: `_I_L = _g_L * (_V_m - _E_L)` -/
def HH_I_L : Expr := .mul (.sym "g_L") (.sub (.sym "V_m") (.sym "E_L"))

/-- Source: `HH_dv_dt = ( _I_A - _I_K - _I_Na - _I_L ) / _C_m` -/
def HH_dv_dt : Expr :=
  .div (.sub (.sub (.sub (.sym "I_A") HH_I_K) HH_I_Na) HH_I_L) (.sym "C_m")

/-- Source: `HH_dn_dt = ( _alpha_n * ( 1.0 - _n ) ) - ( _beta_n * _n )` -/
def HH_dn_dt : Expr :=
  .sub (.mul HH_alpha_n (.sub (.num 1.0) (.sym "n"))) (.mul HH_beta_n (.sym "n"))

/-- Source: `HH_dm_dt = ( _alpha_m * ( 1.0 - _m ) ) - ( _beta_m * _m)` -/
def HH_dm_dt : Expr :=
  .sub (.mul HH_alpha_m (.sub (.num 1.0) (.sym "m"))) (.mul HH_beta_m (.sym "m"))

/-- Source: `HH_dh_dt = ( _alpha_h * ( 1.0 - _h ) ) - ( _beta_h * _h )` -/
def HH_dh_dt : Expr :=
  .sub (.mul HH_alpha_h (.sub (.num 1.0) (.sym "h"))) (.mul HH_beta_h (.sym "h"))

/-! ## Reduced Traub-Miles model with M-current (`src/neuro_models/HH_RTM_M.py`) -/

/-- Source: `RTM_consts`: the default constants of the RTM model
(lines 29-38 of `HH_RTM_M.py`). -/
def RTM_consts : List (String × ℚ) :=
  [("C_m", 1.0), ("E_Na", 50.0), ("E_K", -100.0), ("E_L", -67.0),
   ("g_Na", 100.0), ("g_K", 80.0), ("g_L", 0.1), ("g_M", 0.4)]

/-- Source: `_alpha_m = 0.32 * ( 54.0 + _V_m ) / ( 1 - sym.exp( -1 * ( _V_m + 54.0 ) / 4.0 ) )` -/
def RTM_alpha_m : Expr :=
  .div (.mul (.num 0.32) (.add (.num 54.0) (.sym "V_m")))
    (.sub (.num 1)
      (.exp (.div (.mul (.num (-1)) (.add (.sym "V_m") (.num 54.0))) (.num 4.0))))

/-- Source: `_beta_m = 0.28 * ( 27.0 + _V_m ) / ( sym.exp( ( _V_m + 27.0 ) / 5.0 ) - 1 )` -/
def RTM_beta_m : Expr :=
  .div (.mul (.num 0.28) (.add (.num 27.0) (.sym "V_m")))
    (.sub (.exp (.div (.add (.sym "V_m") (.num 27.0)) (.num 5.0))) (.num 1))

/-- Source: `_alpha_h = 0.128 * sym.exp( - ( _V_m + 50.0 ) / 18 )` -/
def RTM_alpha_h : Expr :=
  .mul (.num 0.128) (.exp (.div (.neg (.add (.sym "V_m") (.num 50.0))) (.num 18)))

/-- Source: `_beta_h = 4.0 / ( 1 + sym.exp( -1.0 * ( _V_m + 27.0 ) / 5.0 ))` -/
def RTM_beta_h : Expr :=
  .div (.num 4.0)
    (.add (.num 1)
      (.exp (.div (.mul (.num (-1.0)) (.add (.sym "V_m") (.num 27.0))) (.num 5.0))))

/-- Source: `_alpha_n = 0.032 * ( 52.0 + _V_m ) / ( 1 - sym.exp( -1 * ( _V_m + 52.0 ) / 5.0 ))` -/
def RTM_alpha_n : Expr :=
  .div (.mul (.num 0.032) (.add (.num 52.0) (.sym "V_m")))
    (.sub (.num 1)
      (.exp (.div (.mul (.num (-1)) (.add (.sym "V_m") (.num 52.0))) (.num 5.0))))

/-- Source: `_beta_n = 0.5 * sym.exp( - ( _V_m + 57.0 ) / 40.0 )` -/
def RTM_beta_n : Expr :=
  .mul (.num 0.5) (.exp (.div (.neg (.add (.sym "V_m") (.num 57.0))) (.num 40.0)))

/-- Source: `_m_inf = _alpha_m / ( _alpha_m + _beta_m )` -/
def RTM_m_inf : Expr := .div RTM_alpha_m (.add RTM_alpha_m RTM_beta_m)

/-- Source: `_w_inf = 1 / ( 1 + sym.exp( -1 * ( _V_m + 35.0) / 10.0 ) )` -/
def RTM_w_inf : Expr :=
  .div (.num 1)
    (.add (.num 1)
      (.exp (.div (.mul (.num (-1)) (.add (.sym "V_m") (.num 35.0))) (.num 10.0))))

/-- Source: `_tau_w = 400 / ( 3.3 * sym.exp( ( _V_m + 35.0) / 20.0 ) + sym.exp( -1 * ( _V_m + 35.0) / 20.0 ) )` -/
def RTM_tau_w : Expr :=
  .div (.num 400)
    (.add (.mul (.num 3.3) (.exp (.div (.add (.sym "V_m") (.num 35.0)) (.num 20.0))))
      (.exp (.div (.mul (.num (-1)) (.add (.sym "V_m") (.num 35.0))) (.num 20.0))))

/-- Source: `_I_K = _g_K * ( _n ** 4.0) * ( _V_m - _E_K )` -/
def RTM_I_K : Expr :=
  .mul (.mul (.sym "g_K") (.pow (.sym "n") 4)) (.sub (.sym "V_m") (.sym "E_K"))

/-- Source: `_I_Na = _g_Na * ( _m_inf ** 3.0 ) * _h * (_V_m - _E_Na)` -/
def RTM_I_Na : Expr :=
  .mul (.mul (.mul (.sym "g_Na") (.pow RTM_m_inf 3)) (.sym "h"))
    (.sub (.sym "V_m") (.sym "E_Na"))

/-- Source: `_I_L = _g_L * (_V_m - _E_L)` -/
def RTM_I_L : Expr := .mul (.sym "g_L") (.sub (.sym "V_m") (.sym "E_L"))

/-- Source: `_I_M = _g_M * _w * ( _V_m - _E_K )` -/
def RTM_I_M : Expr :=
  .mul (.mul (.sym "g_M") (.sym "w")) (.sub (.sym "V_m") (.sym "E_K"))

/-- Source: `RTM_dv_dt = ( _I_A - _I_K - _I_Na - _I_L - _I_M) / _C_m` -/
def RTM_dv_dt : Expr :=
  .div (.sub (.sub (.sub (.sub (.sym "I_A") RTM_I_K) RTM_I_Na) RTM_I_L) RTM_I_M)
    (.sym "C_m")

/-- Source: `RTM_dn_dt = ( _alpha_n * ( 1.0 - _n ) ) - ( _beta_n * _n )` -/
def RTM_dn_dt : Expr :=
  .sub (.mul RTM_alpha_n (.sub (.num 1.0) (.sym "n"))) (.mul RTM_beta_n (.sym "n"))

/-- Source: `RTM_dh_dt = ( _alpha_h * ( 1.0 - _h ) ) - ( _beta_h * _h )` -/
def RTM_dh_dt : Expr :=
  .sub (.mul RTM_alpha_h (.sub (.num 1.0) (.sym "h"))) (.mul RTM_beta_h (.sym "h"))

/-- Source: `RTM_dw_dt = ( _w_inf - _w ) / _tau_w` -/
def RTM_dw_dt : Expr := .div (.sub RTM_w_inf (.sym "w")) RTM_tau_w

/-! ## Model descriptors -/

/-- Modelled from the spec: the `NM_model` Model Descriptor record. Its class
is defined in the repository's `util.py`, which is not among the sources; the
fields follow the keyword arguments of the two builder calls
(`name_in`, `model_naming_in`, `model_expr_in`, `lst_vars_in`, `dict_syms`,
the stimulus symbol and the optional `steady_in` vector). -/
structure NM_model where
  name_in : String
  model_naming_in : List String
  model_expr_in : List Expr
  lst_vars_in : List String
  dict_syms : List (String × ℚ)
  stim_sym_in : Option String
  steady_in : Option (List ℚ)
deriving DecidableEq, Repr

/-- Source: `get_model_HH` (lines 98-123 of `HH.py`). -/
def get_model_HH : NM_model where
  name_in := "Hodgkin-Huxley model"
  model_naming_in :=
    ["voltage / dt", "K gate rate / dt", "Na gate rate / dt", "leak gate rate / dt"]
  model_expr_in := [HH_dv_dt, HH_dn_dt, HH_dm_dt, HH_dh_dt]
  lst_vars_in := ["V_m", "n", "m", "h"]
  dict_syms := HH_consts
  stim_sym_in := some "I_A"
  steady_in := some [-65.0, 0.052934217620864, 0.596111046346827, 0.317681167579781]

/-- Source: `get_model` (lines 80-98 of `HH_RTM_M.py`). -/
def get_model : NM_model where
  name_in := "Reduced Traub-Miles Model with M-current"
  model_naming_in := ["voltage / dt", "K current / dt", "leak current / dt"]
  model_expr_in := [RTM_dv_dt, RTM_dn_dt, RTM_dh_dt, RTM_dw_dt]
  lst_vars_in := ["V_m", "n", "h", "w"]
  dict_syms := RTM_consts
  stim_sym_in := some "I_A"
  steady_in := none

/-! ## The model compiler (modelled from the spec) -/

/-- Look up a key in an association list of constants. -/
def lookupConst (l : List (String × ℚ)) (s : String) : Option ℚ :=
  (l.find? (fun p => p.1 == s)).map Prod.snd

/-- Modelled from the spec: the error taxonomy of §7 (`UnresolvedSymbolError`,
`DimensionMismatchError`); the error classes live in the repository's
`util.py`, which is not among the sources. -/
inductive NMerror where
  | unresolvedSymbolError (s : String)
  | dimensionMismatchError
deriving DecidableEq, Repr

/-- Modelled from the spec: `descriptor.constants` merged with
`constant_overrides`, overrides winning (§4.2). -/
def NM_model.mergedConsts (M : NM_model) (ov : List (String × ℚ)) :
    String → Option ℚ :=
  fun s => match lookupConst ov s with
    | some q => some q
    | none => lookupConst M.dict_syms s

/-- The symbols a compiled expression may still mention: the state symbols
and the stimulus symbol. -/
def NM_model.allowedSyms (M : NM_model) : List String :=
  M.lst_vars_in ++ (match M.stim_sym_in with | some s => [s] | none => [])

/-- Modelled from the spec: `compile(descriptor, stimulus_fn,
constant_overrides)` of §4.2; the compiler itself lives in the repository's
`util.py`, which is not among the sources. It substitutes the merged
constants into every derivative expression; fails with
`UnresolvedSymbolError` if some substituted expression still references a
symbol that is neither a state symbol nor the stimulus symbol; fails with
`DimensionMismatchError` if the overrides reference a symbol not present in
`descriptor.constants`; otherwise returns the constant-free expressions
(the lowered evaluator is their `Expr.eval` against the state and the
stimulus value). The stimulus function plays no part in symbol resolution.
`NM_model.substdExprs` is the substitution step of that contract. -/
def NM_model.substdExprs (M : NM_model) (ov : List (String × ℚ)) : List Expr :=
  M.model_expr_in.map (fun e => e.subst (M.mergedConsts ov))

/-- The symbols that remain unresolved after substituting the merged
constants: every symbol of a substituted derivative expression that is
neither a state symbol nor the stimulus symbol. -/
def NM_model.straySyms (M : NM_model) (ov : List (String × ℚ)) : List String :=
  ((M.substdExprs ov).map Expr.syms).flatten.filter
    (fun s => !(M.allowedSyms.contains s))

/-- Modelled from the spec: the error decision of `compile` (§4.2, §7) —
`UnresolvedSymbolError` when a stray symbol survives substitution,
`DimensionMismatchError` when an override key is not a constant of the
descriptor, otherwise success with the substituted expressions. -/
def NM_model.compile (M : NM_model) (stim : ℝ → ℝ) (ov : List (String × ℚ)) :
    Except NMerror (List Expr) :=
  match M.straySyms ov with
  | s :: _ => .error (.unresolvedSymbolError s)
  | [] =>
      if ov.all (fun p => (M.dict_syms.map Prod.fst).contains p.1)
      then .ok (M.substdExprs ov)
      else .error .dimensionMismatchError

/-! ## The standalone Erisir-variant script (`src/standalone/HH_erisir.py`)

Module constants `gK = 224.0`, `gNa = 112.0`, `gL = 0.5`, `Cm = 1.0`,
`E_K = -90.0`, `E_Na = 60.0`, `E_L = -70.0` are inlined below as exact
rationals. -/

/-- Source: `alpha_n(Vm) = ( 95.0 - Vm )/( np.exp( ( 95.0 - Vm ) / 11.8 ) - 1)` -/
noncomputable def erisir_alpha_n (Vm : ℝ) : ℝ :=
  (95.0 - Vm) / (Real.exp ((95.0 - Vm) / 11.8) - 1)

/-- Source: `beta_n(Vm) = 0.025 * np.exp( - Vm / 22.222 )` -/
noncomputable def erisir_beta_n (Vm : ℝ) : ℝ := 0.025 * Real.exp (-Vm / 22.222)

/-- Source: `alpha_m(Vm) = 40 * ( 75.5 - Vm ) / ( np.exp( ( 75.5 - Vm ) / 13.5 ) - 1)` -/
noncomputable def erisir_alpha_m (Vm : ℝ) : ℝ :=
  40 * (75.5 - Vm) / (Real.exp ((75.5 - Vm) / 13.5) - 1)

/-- Source: `beta_m(Vm) = 1.2262 * np.exp( - Vm  / 42.248 )` -/
noncomputable def erisir_beta_m (Vm : ℝ) : ℝ := 1.2262 * Real.exp (-Vm / 42.248)

/-- Source: `alpha_h(Vm) = 0.0035 * np.exp( - Vm / 24.186 )` -/
noncomputable def erisir_alpha_h (Vm : ℝ) : ℝ := 0.0035 * Real.exp (-Vm / 24.186)

/-- Source: `beta_h(Vm) = -0.017 * ( Vm + 51.25 ) / ( np.exp( - ( Vm + 51.25 ) / 5.2 ) - 1 )` -/
noncomputable def erisir_beta_h (Vm : ℝ) : ℝ :=
  -0.017 * (Vm + 51.25) / (Real.exp (-(Vm + 51.25) / 5.2) - 1)

/-- Source: `m_inf(Vm) = alpha_m(Vm) / (alpha_m(Vm) + beta_m(Vm))` -/
noncomputable def erisir_m_inf (Vm : ℝ) : ℝ :=
  erisir_alpha_m Vm / (erisir_alpha_m Vm + erisir_beta_m Vm)

/-- Source: `compute_derivatives(y, t0)`, the closure inside `compute`
(lines 101-125 of `HH_erisir.py`): state `y = (Vm, n, h)`, derivative
vector `dy`. -/
noncomputable def compute_derivatives (stim : ℝ → ℝ) (y : Fin 3 → ℝ) (t0 : ℝ) :
    Fin 3 → ℝ :=
  let Vm := y 0
  let n := y 1
  let h := y 2
  let G_K := (224.0 / 1.0) * n ^ 2
  let G_L := 0.5 / 1.0
  ![stim t0 / 1.0 - G_K * (Vm - (-90.0))
      - (112.0 / 1.0) * erisir_m_inf Vm ^ 3 * h * (Vm - 60.0)
      - G_L * (Vm - (-70.0)),
    erisir_alpha_n Vm * (1.0 - n) - erisir_beta_n Vm * n,
    erisir_alpha_h Vm * (1.0 - h) - erisir_beta_h Vm * h]

/-- Modelled from the spec: `scipy.integrate.odeint(f, ic, ts)` is an
external adaptive-step solver; §4.3 specifies only that it deterministically
integrates `dy/dt = f(y, t)` from `ic` at `ts[0]`, returning one state per
requested time point. It is modelled as a deterministic fixed-step (Euler)
method stepping between consecutive requested time points. -/
noncomputable def odeint (f : (Fin 3 → ℝ) → ℝ → Fin 3 → ℝ) :
    (Fin 3 → ℝ) → ℝ → List ℝ → List (Fin 3 → ℝ)
  | _, _, [] => []
  | y, t, t' :: ts =>
      let y' := fun i => y i + (t' - t) * f y t i
      y' :: odeint f y' t' ts

/-- Source: `compute(stim, IC, T, bln_plot)` (lines 88-152 of `HH_erisir.py`):
solves the ODE system with `odeint` and returns the pair `(T, Vy)`; the
`bln_plot` branch only renders a figure and does not touch the result. -/
noncomputable def compute (stim : ℝ → ℝ) (IC : Fin 3 → ℝ) (T : List ℝ)
    (bln_plot : Bool) : List ℝ × List (Fin 3 → ℝ) :=
  let Vy := match T with
    | [] => []
    | t0 :: ts => IC :: odeint (compute_derivatives stim) IC t0 ts
  (T, Vy)

/-! ## Evaluation environments for the two models -/

/-- The evaluation environment of the HH model: state values `V n m h`,
stimulus value `iA`, and the default constants of `HH_consts`. -/
noncomputable def HHenv (V n m h iA : ℝ) : String → ℝ := fun s =>
  if s = "V_m" then V else if s = "n" then n else if s = "m" then m
  else if s = "h" then h else if s = "I_A" then iA
  else if s = "g_K" then 36 else if s = "g_Na" then 120 else if s = "g_L" then 0.3
  else if s = "E_K" then -77 else if s = "E_Na" then 50 else if s = "E_L" then -54.4
  else if s = "C_m" then 1 else 0

/-- The evaluation environment of the RTM model: state values `V n h w`,
stimulus value `iA`, and the default constants of `RTM_consts`. -/
noncomputable def RTMenv (V n h w iA : ℝ) : String → ℝ := fun s =>
  if s = "V_m" then V else if s = "n" then n else if s = "h" then h
  else if s = "w" then w else if s = "I_A" then iA
  else if s = "C_m" then 1 else if s = "E_Na" then 50 else if s = "E_K" then -100
  else if s = "E_L" then -67 else if s = "g_Na" then 100 else if s = "g_K" then 80
  else if s = "g_L" then 0.1 else if s = "g_M" then 0.4 else 0

/-- The environment of the claimed HH steady state: the state vector is the
descriptor's `steady_in` = `[-65.0, 0.052934217620864, 0.596111046346827,
0.317681167579781]` aligned to the state order `[V_m, n, m, h]`, the
stimulus value is 0, and the constants are the `HH_consts` defaults. -/
noncomputable def HHsteadyEnv : String → ℝ :=
  HHenv (-65) 0.052934217620864 0.596111046346827 0.317681167579781 0

/-- The spec's own example descriptor for the missing-constant failure: one
state variable `x`, one derivative expression `-k * x` referencing the
constant symbol `k`, and no default value for `k` in the constants
mapping. -/
def K1_model : NM_model where
  name_in := "one-state linear decay"
  model_naming_in := ["x / dt"]
  model_expr_in := [.mul (.neg (.sym "k")) (.sym "x")]
  lst_vars_in := ["x"]
  dict_syms := []
  stim_sym_in := none
  steady_in := none

/-! ## Claims -/

/-- C1. The spec's invariant `len(derivative_names) ==
len(derivative_expressions) == len(state_symbols)` is what the claim asserts
of both builders; it holds for `get_model_HH` (all three lengths are 4) but
fails for `get_model` in `HH_RTM_M.py`, whose `model_naming_in` has only 3
entries against 4 derivative expressions and 4 state symbols — a slip in the
RTM builder (the `w` equation has no name), contradicting the documented
invariant. -/
theorem C1_descriptor_lengths :
    (get_model_HH.model_naming_in.length = 4 ∧
     get_model_HH.model_expr_in.length = 4 ∧
     get_model_HH.lst_vars_in.length = 4) ∧
    (get_model.model_naming_in.length = 3 ∧
     get_model.model_expr_in.length = 4 ∧
     get_model.lst_vars_in.length = 4) :=
  ⟨⟨rfl, rfl, rfl⟩, rfl, rfl, rfl⟩

/-- C3. Every symbol free in a derivative expression of either model is a
state symbol, a key of the model's constant mapping, or the stimulus symbol
`I_A`. -/
theorem C3_free_symbols_accounted :
    (∀ e ∈ get_model_HH.model_expr_in, ∀ s ∈ e.syms,
       s ∈ get_model_HH.lst_vars_in ++ HH_consts.map Prod.fst ++ ["I_A"]) ∧
    (∀ e ∈ get_model.model_expr_in, ∀ s ∈ e.syms,
       s ∈ get_model.lst_vars_in ++ RTM_consts.map Prod.fst ++ ["I_A"]) := by
  decide

/-- C4. The voltage derivative of each model is `(I_A - ΣI_ionic)/C_m`
with the ionic currents in the canonical form `g * gating^p * (V - E)`:
for HH, `I_K = g_K·n⁴·(V-E_K)`, `I_Na = g_Na·m³·h·(V-E_Na)`,
`I_L = g_L·(V-E_L)`; for RTM additionally `- I_M = g_M·w·(V-E_K)` (and the
sodium gating is the composite `m_inf`). -/
theorem C4_voltage_equation_form (ρ : String → ℝ) :
    HH_dv_dt.eval ρ =
      (ρ "I_A" - ρ "g_K" * ρ "n" ^ 4 * (ρ "V_m" - ρ "E_K")
        - ρ "g_Na" * ρ "m" ^ 3 * ρ "h" * (ρ "V_m" - ρ "E_Na")
        - ρ "g_L" * (ρ "V_m" - ρ "E_L")) / ρ "C_m" ∧
    RTM_dv_dt.eval ρ =
      (ρ "I_A" - ρ "g_K" * ρ "n" ^ 4 * (ρ "V_m" - ρ "E_K")
        - ρ "g_Na" * RTM_m_inf.eval ρ ^ 3 * ρ "h" * (ρ "V_m" - ρ "E_Na")
        - ρ "g_L" * (ρ "V_m" - ρ "E_L")
        - ρ "g_M" * ρ "w" * (ρ "V_m" - ρ "E_K")) / ρ "C_m" := by
  constructor <;>
    simp only [HH_dv_dt, HH_I_K, HH_I_Na, HH_I_L, RTM_dv_dt, RTM_I_K, RTM_I_Na,
      RTM_I_L, RTM_I_M, Expr.eval]

/-- C5. Each gating-variable derivative has one of the two canonical
forms: `alpha·(1-x) - beta·x` for `HH_dn_dt`, `HH_dm_dt`, `HH_dh_dt`,
`RTM_dn_dt`, `RTM_dh_dt` (with the model's own rate expressions), and the
relaxation form `(w_inf - w)/tau_w` for `RTM_dw_dt`. -/
theorem C5_gating_equation_forms (ρ : String → ℝ) :
    HH_dn_dt.eval ρ = HH_alpha_n.eval ρ * (1 - ρ "n") - HH_beta_n.eval ρ * ρ "n" ∧
    HH_dm_dt.eval ρ = HH_alpha_m.eval ρ * (1 - ρ "m") - HH_beta_m.eval ρ * ρ "m" ∧
    HH_dh_dt.eval ρ = HH_alpha_h.eval ρ * (1 - ρ "h") - HH_beta_h.eval ρ * ρ "h" ∧
    RTM_dn_dt.eval ρ = RTM_alpha_n.eval ρ * (1 - ρ "n") - RTM_beta_n.eval ρ * ρ "n" ∧
    RTM_dh_dt.eval ρ = RTM_alpha_h.eval ρ * (1 - ρ "h") - RTM_beta_h.eval ρ * ρ "h" ∧
    RTM_dw_dt.eval ρ = (RTM_w_inf.eval ρ - ρ "w") / RTM_tau_w.eval ρ := by
  refine ⟨?_, ?_, ?_, ?_, ?_, ?_⟩ <;>
    simp only [HH_dn_dt, HH_dm_dt, HH_dh_dt, RTM_dn_dt, RTM_dh_dt, RTM_dw_dt,
      Expr.eval] <;> norm_num

/-- C6. The stimulus symbol `I_A` occurs free in the first derivative
expression (the voltage equation) of each model and in none of the others;
in the standalone script's `compute_derivatives`, components 1 and 2 of the
derivative vector do not depend on the stimulus function at all. -/
theorem C6_stimulus_only_in_voltage_equation :
    ("I_A" ∈ HH_dv_dt.syms ∧ "I_A" ∉ HH_dn_dt.syms ∧
     "I_A" ∉ HH_dm_dt.syms ∧ "I_A" ∉ HH_dh_dt.syms) ∧
    ("I_A" ∈ RTM_dv_dt.syms ∧ "I_A" ∉ RTM_dn_dt.syms ∧
     "I_A" ∉ RTM_dh_dt.syms ∧ "I_A" ∉ RTM_dw_dt.syms) ∧
    (∀ (stim1 stim2 : ℝ → ℝ) (y : Fin 3 → ℝ) (t : ℝ),
       compute_derivatives stim1 y t 1 = compute_derivatives stim2 y t 1 ∧
       compute_derivatives stim1 y t 2 = compute_derivatives stim2 y t 2) := by
  refine ⟨by decide, by decide, fun stim1 stim2 y t => ⟨?_, ?_⟩⟩ <;>
    simp [compute_derivatives]

/-- C2. Refuted on the code: evaluating the HH derivative expressions at
the descriptor's `steady_in` vector with default constants and zero stimulus
does *not* stay within `1e-3` of zero — the `n` component `HH_dn_dt`
evaluates to about `0.0485 > 1e-3`. (The three gating entries of `steady_in`
are the standard equilibrium values `m_inf(-65), h_inf(-65), n_inf(-65)`
stored in the wrong component order for the state order `[V_m, n, m, h]`;
the spec's steady-state property is the documented intent, so the data in
`steady_in` is the slip.) -/
theorem C2_steady_vector_not_a_near_fixed_point :
    1e-3 < HH_dn_dt.eval HHsteadyEnv := by
  simp only [HH_dn_dt, HH_alpha_n, HH_beta_n, Expr.eval, HHsteadyEnv, HHenv]
  simp
  norm_num [Real.exp_zero]
  have h1 : Real.exp 1 < 2.7182818286 := Real.exp_one_lt_d9
  have h2 : (2.7182818283:ℝ) < Real.exp 1 := Real.exp_one_gt_d9
  have hpos : (0:ℝ) < Real.exp 1 - 1 := by nlinarith
  have hkey : (1:ℝ)/10/1.7182818286 < 1/10/(Real.exp 1 - 1) :=
    div_lt_div_of_pos_left (by norm_num) hpos (by nlinarith)
  have hc1 : (0:ℝ) < 7398951424837 / 7812500000000 := by norm_num
  have hmul := mul_lt_mul_of_pos_right hkey hc1
  have hnum : (1:ℝ)/1000 <
      1/10/1.7182818286 * (7398951424837/7812500000000)
        - 413548575163/62500000000000 := by
    norm_num
  linarith

/-- If `x ≠ 0` then `exp x - 1 ≠ 0`. -/
lemma exp_sub_one_ne_zero {x : ℝ} (hx : x ≠ 0) : Real.exp x - 1 ≠ 0 := by
  intro hc
  exact hx ((Real.exp_eq_one_iff x).mp (by linarith))

/-- If `x ≠ 0` then `1 - exp x ≠ 0`. -/
lemma one_sub_exp_ne_zero {x : ℝ} (hx : x ≠ 0) : 1 - Real.exp x ≠ 0 := by
  intro hc
  exact hx ((Real.exp_eq_one_iff x).mp (by linarith))

/-- Away from its singular voltage `-54`, RTM's `_alpha_m` evaluates to a
strictly positive value. -/
lemma RTM_alpha_m_eval_pos (ρ : String → ℝ) (hV : ρ "V_m" ≠ -54) :
    0 < RTM_alpha_m.eval ρ := by
  simp only [RTM_alpha_m, Expr.eval]
  norm_num
  have h54 : ρ "V_m" + 54 ≠ 0 := fun hc => hV (by linarith)
  rcases lt_or_gt_of_ne h54 with h | h
  · have hexp : 1 < Real.exp ((-54 + -ρ "V_m") / 4) :=
      Real.one_lt_exp_iff.mpr (by linarith)
    exact div_pos_iff.mpr (Or.inr ⟨by nlinarith, by linarith⟩)
  · have hexp : Real.exp ((-54 + -ρ "V_m") / 4) < 1 :=
      Real.exp_lt_one_iff.mpr (by linarith)
    exact div_pos (by nlinarith) (by linarith)

/-- Away from its singular voltage `-27`, RTM's `_beta_m` evaluates to a
strictly positive value. -/
lemma RTM_beta_m_eval_pos (ρ : String → ℝ) (hV : ρ "V_m" ≠ -27) :
    0 < RTM_beta_m.eval ρ := by
  simp only [RTM_beta_m, Expr.eval]
  norm_num
  have h27 : ρ "V_m" + 27 ≠ 0 := fun hc => hV (by linarith)
  rcases lt_or_gt_of_ne h27 with h | h
  · have hexp : Real.exp ((ρ "V_m" + 27) / 5) < 1 :=
      Real.exp_lt_one_iff.mpr (by linarith)
    exact div_pos_iff.mpr (Or.inr ⟨by nlinarith, by linarith⟩)
  · have hexp : 1 < Real.exp ((ρ "V_m" + 27) / 5) :=
      Real.one_lt_exp_iff.mpr (by linarith)
    exact div_pos (by nlinarith) (by linarith)

/-- C10. The denominators of HH's `_beta_h`, RTM's `_beta_h`, `_w_inf`
and `_tau_w` are strictly positive at every real voltage, so the guarded
evaluation of `HH_dh_dt`, `RTM_dh_dt` and `RTM_dw_dt` never divides by zero,
under any assignment of real values to the symbols. -/
theorem C10_h_and_w_equations_never_divide_by_zero (ρ : String → ℝ) :
    0 < Real.exp (-(ρ "V_m" + 35) / 10) + 1 ∧
    0 < 1 + Real.exp (-1 * (ρ "V_m" + 27) / 5) ∧
    0 < 1 + Real.exp (-1 * (ρ "V_m" + 35) / 10) ∧
    0 < 3.3 * Real.exp ((ρ "V_m" + 35) / 20) + Real.exp (-1 * (ρ "V_m" + 35) / 20) ∧
    HH_dh_dt.denomsNonzero ρ ∧
    RTM_dh_dt.denomsNonzero ρ ∧
    RTM_dw_dt.denomsNonzero ρ := by
  refine ⟨by positivity, by positivity, by positivity, by positivity, ?_, ?_, ?_⟩ <;>
    simp only [HH_dh_dt, HH_alpha_h, HH_beta_h, RTM_dh_dt, RTM_alpha_h,
      RTM_beta_h, RTM_dw_dt, RTM_w_inf, RTM_tau_w, Expr.denomsNonzero,
      Expr.eval, ne_eq] <;>
    norm_num <;>
    first
      | positivity
      | exact ⟨by positivity, by positivity⟩

/-- Source: `HH_dv_dt` evaluates with no zero denominator (its only division is by
`C_m`, whose default is 1). -/
lemma HH_dv_wellDef (V n m h iA : ℝ) :
    HH_dv_dt.denomsNonzero (HHenv V n m h iA) := by
  norm_num [HH_dv_dt, HH_I_K, HH_I_Na, HH_I_L, Expr.denomsNonzero, Expr.eval,
    HHenv]
  simp

/-- Away from `V_m = -55`, `HH_dn_dt` evaluates with no zero denominator. -/
lemma HH_dn_wellDef (V n m h iA : ℝ) (hV : V ≠ -55) :
    HH_dn_dt.denomsNonzero (HHenv V n m h iA) := by
  norm_num [HH_dn_dt, HH_alpha_n, HH_beta_n, Expr.denomsNonzero, Expr.eval,
    HHenv]
  exact exp_sub_one_ne_zero (fun hc => hV (by linarith))

/-- Away from `V_m = -40`, `HH_dm_dt` evaluates with no zero denominator. -/
lemma HH_dm_wellDef (V n m h iA : ℝ) (hV : V ≠ -40) :
    HH_dm_dt.denomsNonzero (HHenv V n m h iA) := by
  norm_num [HH_dm_dt, HH_alpha_m, HH_beta_m, Expr.denomsNonzero, Expr.eval,
    HHenv]
  exact exp_sub_one_ne_zero (fun hc => hV (by linarith))

/-- Source: `HH_dh_dt` evaluates with no zero denominator at any voltage. -/
lemma HH_dh_wellDef (V n m h iA : ℝ) :
    HH_dh_dt.denomsNonzero (HHenv V n m h iA) := by
  norm_num [HH_dh_dt, HH_alpha_h, HH_beta_h, Expr.denomsNonzero, Expr.eval,
    HHenv]
  positivity

/-- Away from `V_m = -54` and `V_m = -27`, `RTM_dv_dt` evaluates with no
zero denominator (the two rate singularities sit inside `_m_inf`; the sum
`_alpha_m + _beta_m` in its denominator is positive). -/
lemma RTM_dv_wellDef (V n h w iA : ℝ) (hV54 : V ≠ -54) (hV27 : V ≠ -27) :
    RTM_dv_dt.denomsNonzero (RTMenv V n h w iA) := by
  have ρdef : (RTMenv V n h w iA) "V_m" = V := by norm_num [RTMenv]
  have ham := RTM_alpha_m_eval_pos (RTMenv V n h w iA) (by rw [ρdef]; exact hV54)
  have hbm := RTM_beta_m_eval_pos (RTMenv V n h w iA) (by rw [ρdef]; exact hV27)
  have hsum : RTM_alpha_m.eval (RTMenv V n h w iA)
      + RTM_beta_m.eval (RTMenv V n h w iA) ≠ 0 := by positivity
  simp only [RTM_alpha_m, RTM_beta_m, Expr.eval, RTMenv] at hsum
  norm_num at hsum
  norm_num [RTM_dv_dt, RTM_I_K, RTM_I_Na, RTM_I_L, RTM_I_M, RTM_m_inf,
    RTM_alpha_m, RTM_beta_m, Expr.denomsNonzero, Expr.eval, RTMenv]
  refine ⟨⟨one_sub_exp_ne_zero (fun hc => hV54 (by linarith)),
    ⟨one_sub_exp_ne_zero (fun hc => hV54 (by linarith)),
     exp_sub_one_ne_zero (fun hc => hV27 (by linarith))⟩, hsum⟩, ?_⟩
  simp

/-- Away from `V_m = -52`, `RTM_dn_dt` evaluates with no zero denominator. -/
lemma RTM_dn_wellDef (V n h w iA : ℝ) (hV : V ≠ -52) :
    RTM_dn_dt.denomsNonzero (RTMenv V n h w iA) := by
  norm_num [RTM_dn_dt, RTM_alpha_n, RTM_beta_n, Expr.denomsNonzero, Expr.eval,
    RTMenv]
  exact one_sub_exp_ne_zero (fun hc => hV (by linarith))

/-- Source: `RTM_dh_dt` evaluates with no zero denominator at any voltage. -/
lemma RTM_dh_wellDef (V n h w iA : ℝ) :
    RTM_dh_dt.denomsNonzero (RTMenv V n h w iA) := by
  norm_num [RTM_dh_dt, RTM_alpha_h, RTM_beta_h, Expr.denomsNonzero, Expr.eval,
    RTMenv]
  positivity

/-- Source: `RTM_dw_dt` evaluates with no zero denominator at any voltage. -/
lemma RTM_dw_wellDef (V n h w iA : ℝ) :
    RTM_dw_dt.denomsNonzero (RTMenv V n h w iA) := by
  norm_num [RTM_dw_dt, RTM_w_inf, RTM_tau_w, Expr.denomsNonzero, Expr.eval,
    RTMenv]
  exact ⟨by positivity, by positivity⟩

/-- C7. The rate-function denominators have exact zero-division points:
at `V_m = -55` the guarded evaluation of `HH_dn_dt` meets a zero denominator
(in `_alpha_n`), at `V_m = -40` that of `HH_dm_dt` does (in `_alpha_m`); for
the RTM model `RTM_dv_dt` meets one at `V_m = -54` (in `_alpha_m`, inside
`_m_inf`) and at `V_m = -27` (in `_beta_m`), and `RTM_dn_dt` at `V_m = -52`
(in `_alpha_n`). At every voltage away from the model's singular points every
derivative expression of that model evaluates with all denominators
nonzero. -/
theorem C7_rate_denominator_singularities :
    (∀ n m h iA : ℝ, ¬ HH_dn_dt.denomsNonzero (HHenv (-55) n m h iA)) ∧
    (∀ n m h iA : ℝ, ¬ HH_dm_dt.denomsNonzero (HHenv (-40) n m h iA)) ∧
    (∀ n h w iA : ℝ, ¬ RTM_dv_dt.denomsNonzero (RTMenv (-54) n h w iA)) ∧
    (∀ n h w iA : ℝ, ¬ RTM_dv_dt.denomsNonzero (RTMenv (-27) n h w iA)) ∧
    (∀ n h w iA : ℝ, ¬ RTM_dn_dt.denomsNonzero (RTMenv (-52) n h w iA)) ∧
    (∀ V n m h iA : ℝ, V ≠ -55 → V ≠ -40 →
      HH_dv_dt.denomsNonzero (HHenv V n m h iA) ∧
      HH_dn_dt.denomsNonzero (HHenv V n m h iA) ∧
      HH_dm_dt.denomsNonzero (HHenv V n m h iA) ∧
      HH_dh_dt.denomsNonzero (HHenv V n m h iA)) ∧
    (∀ V n h w iA : ℝ, V ≠ -54 → V ≠ -27 → V ≠ -52 →
      RTM_dv_dt.denomsNonzero (RTMenv V n h w iA) ∧
      RTM_dn_dt.denomsNonzero (RTMenv V n h w iA) ∧
      RTM_dh_dt.denomsNonzero (RTMenv V n h w iA) ∧
      RTM_dw_dt.denomsNonzero (RTMenv V n h w iA)) := by
  refine ⟨?_, ?_, ?_, ?_, ?_, ?_, ?_⟩
  · intro n m h iA
    norm_num [HH_dn_dt, HH_alpha_n, HH_beta_n, Expr.denomsNonzero, Expr.eval,
      HHenv, Real.exp_zero]
  · intro n m h iA
    norm_num [HH_dm_dt, HH_alpha_m, HH_beta_m, Expr.denomsNonzero, Expr.eval,
      HHenv, Real.exp_zero]
  · intro n h w iA
    norm_num [RTM_dv_dt, RTM_I_K, RTM_I_Na, RTM_I_L, RTM_I_M, RTM_m_inf,
      RTM_alpha_m, RTM_beta_m, Expr.denomsNonzero, Expr.eval, RTMenv,
      Real.exp_zero]
  · intro n h w iA
    norm_num [RTM_dv_dt, RTM_I_K, RTM_I_Na, RTM_I_L, RTM_I_M, RTM_m_inf,
      RTM_alpha_m, RTM_beta_m, Expr.denomsNonzero, Expr.eval, RTMenv,
      Real.exp_zero]
  · intro n h w iA
    norm_num [RTM_dn_dt, RTM_alpha_n, RTM_beta_n, Expr.denomsNonzero,
      Expr.eval, RTMenv, Real.exp_zero]
  · intro V n m h iA hV55 hV40
    exact ⟨HH_dv_wellDef V n m h iA, HH_dn_wellDef V n m h iA hV55,
      HH_dm_wellDef V n m h iA hV40, HH_dh_wellDef V n m h iA⟩
  · intro V n h w iA hV54 hV27 hV52
    exact ⟨RTM_dv_wellDef V n h w iA hV54 hV27, RTM_dn_wellDef V n h w iA hV52,
      RTM_dh_wellDef V n h w iA, RTM_dw_wellDef V n h w iA⟩

/-- C8. Compilation fails with `UnresolvedSymbolError` exactly when,
after substituting the descriptor's defaults merged with the overrides, some
derivative expression still references a symbol that is neither a state
symbol nor the stimulus symbol; in particular, compiling the one-constant
descriptor `K1_model` (whose constant `k` has no default) with empty
overrides fails with `UnresolvedSymbolError "k"`. -/
theorem C8_compile_unresolved_symbol_iff :
    (∀ (M : NM_model) (stim : ℝ → ℝ) (ov : List (String × ℚ)),
      (∃ s, M.compile stim ov = .error (.unresolvedSymbolError s)) ↔
      (∃ e ∈ M.substdExprs ov, ∃ s ∈ e.syms, s ∉ M.allowedSyms)) ∧
    K1_model.compile (fun _ => 0) [] = .error (.unresolvedSymbolError "k") := by
  refine ⟨fun M stim ov => ?_, rfl⟩
  cases hfl : M.straySyms ov with
  | nil =>
      simp only [NM_model.compile, hfl]
      constructor
      · rintro ⟨s, hs⟩
        by_cases hok : ov.all (fun p => (M.dict_syms.map Prod.fst).contains p.1)
        · rw [if_pos hok] at hs
          exact absurd hs (fun hc => Except.noConfusion hc)
        · rw [if_neg hok] at hs
          injection hs with h
          exact absurd h (fun hc => NMerror.noConfusion hc)
      · rintro ⟨e, he, s, hs, hstray⟩
        exfalso
        have hmem : s ∈ M.straySyms ov := by
          simp only [NM_model.straySyms, List.mem_filter, List.mem_flatten,
            List.mem_map]
          exact ⟨⟨e.syms, ⟨e, he, rfl⟩, hs⟩, by simpa using hstray⟩
        rw [hfl] at hmem
        exact absurd hmem (List.not_mem_nil s)
  | cons s t =>
      simp only [NM_model.compile, hfl]
      constructor
      · rintro -
        have hmem : s ∈ M.straySyms ov := by rw [hfl]; exact List.mem_cons_self s t
        simp only [NM_model.straySyms, List.mem_filter, List.mem_flatten,
          List.mem_map] at hmem
        obtain ⟨⟨l, ⟨e, he, rfl⟩, hsl⟩, hstray⟩ := hmem
        exact ⟨e, he, s, hsl, by simpa using hstray⟩
      · rintro -
        exact ⟨s, rfl⟩

/-- C9. Trajectory generation is deterministic and free of hidden state:
two calls of the standalone `compute` with pointwise-equal stimulus
functions, the same initial state, and the same time points return equal
`(T, Vy)` pairs — whatever the `bln_plot` flags, which only control
rendering. -/
theorem C9_compute_deterministic (stim1 stim2 : ℝ → ℝ) (IC : Fin 3 → ℝ)
    (T : List ℝ) (b1 b2 : Bool) (hstim : ∀ t, stim1 t = stim2 t) :
    compute stim1 IC T b1 = compute stim2 IC T b2 := by
  have hs : stim1 = stim2 := funext hstim
  subst hs
  rfl

/-- Witness for C9: two syntactically different but pointwise-equal zero
stimulus functions, with different plot flags, yield the same result. -/
theorem C9_compute_deterministic_witness :
    compute (fun _ => 0) ![(-69.83), 0, 0] [0, 1] true
      = compute (fun u => 0 + 0 * u) ![(-69.83), 0, 0] [0, 1] false :=
  C9_compute_deterministic _ _ _ _ _ _ (fun t => by ring)

/-- Witness for C7: at the regular voltage `V_m = 0` all derivative
expressions of both models evaluate with nonzero denominators. -/
theorem C7_rate_denominator_singularities_witness :
    HH_dv_dt.denomsNonzero (HHenv 0 0 0 0 0) ∧
    HH_dn_dt.denomsNonzero (HHenv 0 0 0 0 0) ∧
    HH_dm_dt.denomsNonzero (HHenv 0 0 0 0 0) ∧
    HH_dh_dt.denomsNonzero (HHenv 0 0 0 0 0) ∧
    RTM_dv_dt.denomsNonzero (RTMenv 0 0 0 0 0) ∧
    RTM_dn_dt.denomsNonzero (RTMenv 0 0 0 0 0) ∧
    RTM_dh_dt.denomsNonzero (RTMenv 0 0 0 0 0) ∧
    RTM_dw_dt.denomsNonzero (RTMenv 0 0 0 0 0) := by
  obtain ⟨-, -, -, -, -, hHH, hRTM⟩ := C7_rate_denominator_singularities
  obtain ⟨a, b, c, d⟩ := hHH 0 0 0 0 0 (by norm_num) (by norm_num)
  obtain ⟨e, f, g, i⟩ := hRTM 0 0 0 0 0 (by norm_num) (by norm_num) (by norm_num)
  exact ⟨a, b, c, d, e, f, g, i⟩

/-- Witness for C3: the voltage equation is one of the HH descriptor's
expressions and its symbol `V_m` is accounted for. -/
theorem C3_free_symbols_accounted_witness :
    "V_m" ∈ get_model_HH.lst_vars_in ++ HH_consts.map Prod.fst ++ ["I_A"] :=
  C3_free_symbols_accounted.1 HH_dv_dt (by decide) "V_m" (by decide)
